import Mathlib

/-!
Shallow embedding of the `paws` deployment helpers.

The embedding models:
* the local filesystem (`FS`) as an association list of file paths to byte
  contents plus a list of directories; paths are lists of name components;
* the remote object store (`S3`) as an association list of bucket names to
  bucket data (a creation region and an association list of object keys to
  bytes), plus a set of injected write faults standing for remote write
  failures other than a missing bucket;
* the remote function service (`Lam`) as an association list of function
  names to function records, plus a set of injected faults for the
  permission-grant call;
* the API-gateway service (`Gw`) as a list of created APIs plus a counter
  from which fresh API identifiers are generated.

Each Python function of the repository is translated to a Lean function
that threads the relevant state explicitly and returns `Except Err`
alongside the post-state.  `Path.rename` is given POSIX semantics (the
destination is replaced silently when its parent directory exists).
-/

namespace Paws

/-- Error taxonomy: translations of the exceptions the Python code can
raise or propagate from the SDK. -/
inductive Err where
  | alreadyExists
  | containerNotFound
  | storeWrite
  | objectNotFound
  | duplicateFunction
  | functionNotFound
  | gatewayProvision
  | fileNotFound
  | permissionGrant
  deriving DecidableEq

/-- A filesystem path, as a list of name components. -/
abbrev FPath := List String

/-- File contents, as a list of byte values. -/
abbrev Bytes := List Nat

/-- Look up a key in an association list (first match wins). -/
def find1 {κ α : Type} [DecidableEq κ] (k : κ) : List (κ × α) → Option α
  | [] => none
  | e :: es => if e.1 = k then some e.2 else find1 k es

/-- Remove every entry with the given key from an association list. -/
def erase1 {κ α : Type} [DecidableEq κ] (k : κ) : List (κ × α) → List (κ × α)
  | [] => []
  | e :: es => if e.1 = k then erase1 k es else e :: erase1 k es

/-- The local filesystem: a set of directories and a map from file paths
to contents. -/
structure FS where
  dirs : List FPath
  files : List (FPath × Bytes)
  deriving DecidableEq

/-- Content of the file at `p`, if any. -/
def FS.lookupFile (fs : FS) (p : FPath) : Option Bytes := find1 p fs.files

/-- Write (create or replace) the file at `p`. -/
def FS.writeFile (fs : FS) (p : FPath) (c : Bytes) : FS :=
  { fs with files := (p, c) :: erase1 p fs.files }

/-- Remove the file at `p` (`Path.unlink`). -/
def FS.removeFile (fs : FS) (p : FPath) : FS :=
  { fs with files := erase1 p fs.files }

/-- Does a file or directory exist at `p`?  (`Path.exists`.) -/
def FS.existsAny (fs : FS) (p : FPath) : Prop :=
  (fs.lookupFile p).isSome = true ∨ p ∈ fs.dirs

instance (fs : FS) (p : FPath) : Decidable (fs.existsAny p) := by
  unfold FS.existsAny; infer_instance

/-- Create a directory (`TemporaryDirectory` creating its directory). -/
def FS.mkdir (fs : FS) (p : FPath) : FS := { fs with dirs := p :: fs.dirs }

/-- Remove the directory `t` and everything beneath it (the cleanup a
`TemporaryDirectory` context manager performs on exit). -/
def FS.removeTree (fs : FS) (t : FPath) : FS :=
  { dirs := fs.dirs.filter (fun d => decide (¬ t <+: d)),
    files := fs.files.filter (fun e => decide (¬ t <+: e.1)) }

/-- POSIX `Path.rename`: fails when the source is missing or the parent of
the destination does not exist; otherwise moves the file, silently
replacing any existing destination. -/
def FS.rename (fs : FS) (src dst : FPath) : Except Err Unit × FS :=
  match fs.lookupFile src with
  | none => (Except.error Err.fileNotFound, fs)
  | some c =>
    if dst.dropLast = [] ∨ dst.dropLast ∈ fs.dirs then
      (Except.ok (), (fs.removeFile src).writeFile dst c)
    else (Except.error Err.fileNotFound, fs)

/-- `shutil.make_archive(base_name, "zip", ...)` writes to `base_name`
plus a `.zip` extension appended to the final component. -/
def withZipExt (p : FPath) : FPath :=
  p.dropLast ++ [p.getLastD "" ++ ".zip"]

/-- The files located under `root`. -/
def dirFiles (fs : FS) (root : FPath) : List (FPath × Bytes) :=
  fs.files.filter (fun e => decide (root <+: e.1))

/-- Abstract byte content of the zip archive of the directory `root`:
a deterministic encoding of the files beneath it. -/
def archiveBytes (fs : FS) (root : FPath) : Bytes :=
  (dirFiles fs root).foldr (fun e acc => e.2 ++ acc) []

/-- `paws.utils.zip_to`: archive the directory `to_zip` (the archive is
produced at `{to_zip}.zip`, next to the source), unlink `zip_name` when
`overwrite` is set and it exists, then rename the archive to `zip_name`. -/
def zip_to (fs : FS) (to_zip zip_name : FPath) (overwrite : Bool) :
    Except Err FPath × FS :=
  if to_zip ∈ fs.dirs then
    let zipped := withZipExt to_zip
    let fs1 := fs.writeFile zipped (archiveBytes fs to_zip)
    let fs2 := if overwrite = true ∧ fs1.existsAny zip_name then
        fs1.removeFile zip_name
      else fs1
    match fs2.rename zipped zip_name with
    | (Except.ok _, fs3) => (Except.ok zip_name, fs3)
    | (Except.error e, fs3) => (Except.error e, fs3)
  else (Except.error Err.fileNotFound, fs)

/-- A filesystem holding a source directory `src` with one file, and a
pre-existing archive at `out.zip`. -/
def fsC1 : FS :=
  { dirs := [["src"]],
    files := [(["src", "a"], [7]), (["out.zip"], [9])] }

/-- Data of one bucket of the object store: the region it was created
with and its objects. -/
structure BucketData where
  region : String
  objs : List (String × Bytes)
  deriving DecidableEq

/-- The remote object store: buckets by name, plus injected write faults
(pairs of bucket and key whose write fails remotely for a reason other
than a missing bucket). -/
structure S3 where
  buckets : List (String × BucketData)
  writeFaults : List (String × String)
  deriving DecidableEq

/-- The reference `bucket.put_object` returns: the `s3.Object` with the
bucket name and the key that was actually passed to the write. -/
structure S3Obj where
  bucket_name : String
  key : String
  deriving DecidableEq

/-- `bucket.put_object`: fails with the injected fault when one is set
for this bucket and key, fails with `NoSuchBucket` when the bucket does
not exist, and otherwise stores the object. -/
def put_object (s3 : S3) (b k : String) (c : Bytes) : Except Err Unit × S3 :=
  if (b, k) ∈ s3.writeFaults then (Except.error Err.storeWrite, s3)
  else
    match find1 b s3.buckets with
    | none => (Except.error Err.containerNotFound, s3)
    | some bd =>
      (Except.ok (),
       { s3 with buckets :=
          (b, { bd with objs := (k, c) :: erase1 k bd.objs }) ::
            erase1 b s3.buckets })

/-- `bucket.create(CreateBucketConfiguration={LocationConstraint: loc})`. -/
def bucket_create (s3 : S3) (b loc : String) : S3 :=
  { s3 with buckets :=
      (b, { region := loc, objs := [] }) :: erase1 b s3.buckets }

/-- `paws.s3.push_to_s3`: read the file, default the key to the file
name, attempt a direct write (note the source passes `Key=file_path.name`
here, not the supplied `key`); on `NoSuchBucket`, either create the
bucket and retry the write once (this time with `Key=key`) when
`create_bucket` is set, or re-raise; any other write failure propagates. -/
def push_to_s3 (s3 : S3) (fs : FS) (file : FPath) (bucket_name : String)
    (key : Option String) (create_bucket : Bool) (location : String) :
    Except Err S3Obj × S3 :=
  match fs.lookupFile file with
  | none => (Except.error Err.fileNotFound, s3)
  | some content =>
    let fname := file.getLastD ""
    let key1 := key.getD fname
    match put_object s3 bucket_name fname content with
    | (Except.ok _, s3a) =>
      (Except.ok { bucket_name := bucket_name, key := fname }, s3a)
    | (Except.error Err.containerNotFound, _) =>
      if create_bucket = true then
        let s3b := bucket_create s3 bucket_name location
        match put_object s3b bucket_name key1 content with
        | (Except.ok _, s3c) =>
          (Except.ok { bucket_name := bucket_name, key := key1 }, s3c)
        | (Except.error e, s3c) => (Except.error e, s3c)
      else (Except.error Err.containerNotFound, s3)
    | (Except.error e, s3a) => (Except.error e, s3a)

/-- Content of the object stored under bucket `b` and key `k`, if any. -/
def objLookup (s3 : S3) (b k : String) : Option Bytes :=
  match find1 b s3.buckets with
  | none => none
  | some bd => find1 k bd.objs

/-- A store holding one existing, empty bucket `bkt` and no faults. -/
def s3C2 : S3 :=
  { buckets := [("bkt", { region := "EU", objs := [] })], writeFaults := [] }

/-- A filesystem holding one file `b.zip`. -/
def fsC2 : FS := { dirs := [], files := [(["b.zip"], [1, 2, 3])] }

/-- A record of a registered serverless function, as the function service
holds it. -/
structure FnInfo where
  role : String
  handler : String
  runtime : String
  codeBucket : String
  codeKey : String
  layers : List String
  env : List (String × String)
  descr : String
  arn : String
  hasGatewayPermission : Bool
  deriving DecidableEq

/-- The remote function service: functions by name, plus injected faults
for the permission-grant call (`add_permission`). -/
structure Lam where
  functions : List (String × FnInfo)
  grantFaults : List String
  deriving DecidableEq

/-- The provider-assigned function identifier. -/
def arnOf (name : String) : String :=
  "arn:aws:lambda:eu-west-1:000000000000:function:" ++ name

/-- `paws.lambda_tools.function_tools.delete_function`: the underlying
`delete_function` SDK call raises when the function does not exist;
otherwise the function is removed and `True` is returned. -/
def delete_function (lam : Lam) (function_name : String) :
    Except Err Bool × Lam :=
  match find1 function_name lam.functions with
  | none => (Except.error Err.functionNotFound, lam)
  | some _ =>
    (Except.ok true,
     { lam with functions := erase1 function_name lam.functions })

/-- `update_lambda_code_from_s3`: `update_function_code` raises when the
function does not exist; otherwise the function's code reference is
swapped to the given bucket and key. -/
def update_lambda_code_from_s3 (lam : Lam)
    (object_key bucket_name function_name : String) :
    Except Err FnInfo × Lam :=
  match find1 function_name lam.functions with
  | none => (Except.error Err.functionNotFound, lam)
  | some info =>
    let info2 := { info with codeBucket := bucket_name, codeKey := object_key }
    (Except.ok info2,
     { lam with functions :=
        (function_name, info2) :: erase1 function_name lam.functions })

/-- `add_layers_to_function`: `update_function_configuration` with
`Layers=layers` raises when the function does not exist; otherwise the
function's layer list is replaced wholesale by `layers`. -/
def add_layers_to_function (lam : Lam) (function_name : String)
    (layers : List String) : Except Err FnInfo × Lam :=
  match find1 function_name lam.functions with
  | none => (Except.error Err.functionNotFound, lam)
  | some info =>
    let info2 := { info with layers := layers }
    (Except.ok info2,
     { lam with functions :=
        (function_name, info2) :: erase1 function_name lam.functions })

/-- `update_function`: inside a `TemporaryDirectory` `t`, zip the source
directory to `t/lambda_function.zip` (with `overwrite=True`) and push it
to the store (with `create_bucket=True` and the default location `EU`);
the temporary directory is removed on every exit path of the `with`
block.  Then, when a non-empty layer list is supplied, replace the layer
list in a separate remote call, and finally swap the function's code. -/
def update_function (fs : FS) (s3 : S3) (lam : Lam) (t : FPath)
    (function_name : String) (function_path : FPath) (bucket_name : String)
    (layers : Option (List String)) :
    Except Err FnInfo × FS × S3 × Lam :=
  let fs0 := fs.mkdir t
  match zip_to fs0 function_path (t ++ ["lambda_function.zip"]) true with
  | (Except.error e, fs1) => (Except.error e, fs1.removeTree t, s3, lam)
  | (Except.ok zipped, fs1) =>
    match push_to_s3 s3 fs1 zipped bucket_name none true "EU" with
    | (Except.error e, s3a) => (Except.error e, fs1.removeTree t, s3a, lam)
    | (Except.ok s3ed, s3a) =>
      let fs2 := fs1.removeTree t
      match layers with
      | some ls =>
        if ls = [] then
          match update_lambda_code_from_s3 lam s3ed.key bucket_name
              function_name with
          | (r, lam1) => (r, fs2, s3a, lam1)
        else
          match add_layers_to_function lam function_name ls with
          | (Except.error e, lam1) => (Except.error e, fs2, s3a, lam1)
          | (Except.ok _, lam1) =>
            match update_lambda_code_from_s3 lam1 s3ed.key bucket_name
                function_name with
            | (r, lam2) => (r, fs2, s3a, lam2)
      | none =>
        match update_lambda_code_from_s3 lam s3ed.key bucket_name
            function_name with
        | (r, lam1) => (r, fs2, s3a, lam1)

/-- `create_function`: inside a `TemporaryDirectory` `t`, zip the source
directory to `t/lambda_function.zip` (default `overwrite=False`) and
push it to the store (`create_bucket=True`, location `EU`); the
temporary directory is removed on every exit path of the `with` block.
Then register the function (`create_function` raises on a duplicate
name) and, when `api_gateway_permission` is set, grant the gateway
invocation permission in a second remote call; a fault injected for that
call surfaces after the function has been registered. -/
def create_function (fs : FS) (s3 : S3) (lam : Lam) (t : FPath)
    (function_name : String) (function_path : FPath) (bucket_name : String)
    (role : String) (layers : Option (List String)) (handler : String)
    (description : String) (api_gateway_permission : Bool)
    (env : Option (List (String × String))) :
    Except Err FnInfo × FS × S3 × Lam :=
  let fs0 := fs.mkdir t
  match zip_to fs0 function_path (t ++ ["lambda_function.zip"]) false with
  | (Except.error e, fs1) => (Except.error e, fs1.removeTree t, s3, lam)
  | (Except.ok zipped, fs1) =>
    match push_to_s3 s3 fs1 zipped bucket_name none true "EU" with
    | (Except.error e, s3a) => (Except.error e, fs1.removeTree t, s3a, lam)
    | (Except.ok s3ed, s3a) =>
      let fs2 := fs1.removeTree t
      let layers1 := layers.getD []
      let env1 := env.getD []
      match find1 function_name lam.functions with
      | some _ => (Except.error Err.duplicateFunction, fs2, s3a, lam)
      | none =>
        let info : FnInfo :=
          { role := role, handler := handler, runtime := "python3.6",
            codeBucket := s3ed.bucket_name, codeKey := s3ed.key,
            layers := layers1, env := env1, descr := description,
            arn := arnOf function_name, hasGatewayPermission := false }
        let lam1 := { lam with functions := (function_name, info) :: lam.functions }
        if api_gateway_permission = true then
          if function_name ∈ lam.grantFaults then
            (Except.error Err.permissionGrant, fs2, s3a, lam1)
          else
            let info2 := { info with hasGatewayPermission := true }
            (Except.ok info,
             fs2, s3a,
             { lam with functions := (function_name, info2) :: lam.functions })
        else (Except.ok info, fs2, s3a, lam1)

/-- One API created by the gateway publisher. -/
structure Api where
  id : String
  name : String
  descr : String
  pathParts : List String
  methods : List (String × String)
  integrations : List (String × String × String)
  stages : List String
  deriving DecidableEq

/-- The gateway service: created APIs, plus the counter from which the
next generated API identifier is drawn. -/
structure Gw where
  nextId : Nat
  apis : List Api
  deriving DecidableEq

/-- The provider-generated identifier of the `n`-th created API. -/
def genId (n : Nat) : String := "restapi" ++ Nat.repr n

/-- `create_lambda_api_link`: create a brand-new REST API, a resource
under its root for `path_part`, an `ANY` method with an `AWS_PROXY`
integration pointing at the function, and a deployment at `stage_name`;
return the URL assembled from the generated API identifier, the stage
name and the path part. -/
def create_lambda_api_link (gw : Gw)
    (function_arn api_name path_part stage_name description : String) :
    Except Err String × Gw :=
  let rest_api_id := genId gw.nextId
  let uri := "arn:aws:apigateway:eu-west-1:lambda:path/2015-03-31/functions/"
      ++ function_arn ++ "/invocations"
  let api : Api :=
    { id := rest_api_id, name := api_name, descr := description,
      pathParts := [path_part],
      methods := [(path_part, "ANY")],
      integrations := [(path_part, "AWS_PROXY", uri)],
      stages := [stage_name] }
  let url := "https://" ++ rest_api_id ++ ".execute-api.eu-west-1.amazonaws.com/"
      ++ stage_name ++ "/" ++ path_part ++ "/"
  (Except.ok url, { nextId := gw.nextId + 1, apis := gw.apis ++ [api] })

/-- `deploy_function`: create the function (with gateway permission and
the default handler), then either publish a gateway route named after
the function with path part `api` and stage `test` and return its URL,
or return the fixed success string. -/
def deploy_function (fs : FS) (s3 : S3) (lam : Lam) (gw : Gw) (t : FPath)
    (function_name : String) (function_path : FPath) (bucket_name : String)
    (role : String) (layers : Option (List String)) (description : String)
    (env : Option (List (String × String))) (make_api : Bool) :
    Except Err String × FS × S3 × Lam × Gw :=
  match create_function fs s3 lam t function_name function_path bucket_name
      role layers "lambda_function.lambda_handler" description true env with
  | (Except.error e, fs1, s3a, lam1) => (Except.error e, fs1, s3a, lam1, gw)
  | (Except.ok info, fs1, s3a, lam1) =>
    if make_api = true then
      match create_lambda_api_link gw info.arn function_name "api" "test"
          description with
      | (Except.ok url, gw1) => (Except.ok url, fs1, s3a, lam1, gw1)
      | (Except.error e, gw1) => (Except.error e, fs1, s3a, lam1, gw1)
    else ((Except.ok "Function deployed successfully"), fs1, s3a, lam1, gw)

/-- The filesystem `zip_to` leaves behind on the success path when
archiving `src` into `t ++ [z]` after `t` has been created: the
intermediate archive `{src}.zip` is written, then moved to `t ++ [z]`. -/
def afterZip (fs : FS) (src t : FPath) (z : String) : FS :=
  (((fs.mkdir t).writeFile (withZipExt src)
      (archiveBytes (fs.mkdir t) src)).removeFile
    (withZipExt src)).writeFile (t ++ [z]) (archiveBytes (fs.mkdir t) src)

/-- The function record `create_function` registers, given `hpush`-shaped
store results: a convenient abbreviation used in statements below. -/
def createdInfo (name bucket role handler descr : String)
    (layers : Option (List String)) (env : Option (List (String × String))) :
    FnInfo :=
  { role := role, handler := handler, runtime := "python3.6",
    codeBucket := bucket, codeKey := "lambda_function.zip",
    layers := layers.getD [], env := env.getD [], descr := descr,
    arn := arnOf name, hasGatewayPermission := false }

/-- A filesystem holding one source directory `src` with one file. -/
def fsSrc : FS := { dirs := [["src"]], files := [(["src", "a"], [7])] }

/-- An empty object store with no injected faults. -/
def s3Empty : S3 := { buckets := [], writeFaults := [] }

/-- A function service with no functions and no injected faults. -/
def lamEmpty : Lam := { functions := [], grantFaults := [] }

/-- An empty gateway service. -/
def gwEmpty : Gw := { nextId := 0, apis := [] }

/-- A sample registered function record. -/
def infoSample : FnInfo := createdInfo "f1" "bkt" "role1" "m.h" "" none none

/-- A function service already holding a function named `f1`. -/
def lamOne : Lam := { functions := [("f1", infoSample)], grantFaults := [] }

/-- A function service where the permission-grant call for `f1` fails. -/
def lamFault : Lam := { functions := [], grantFaults := ["f1"] }

/-!  Helper lemmas about the association lists and the filesystem. -/

theorem find1_erase1 {κ α : Type} [DecidableEq κ] (k q : κ) (l : List (κ × α)) :
    find1 q (erase1 k l) = if q = k then none else find1 q l := by
  induction l with
  | nil => simp [find1, erase1]
  | cons e es ih =>
    rcases eq_or_ne e.1 k with h1 | h1
    · rcases eq_or_ne q k with h2 | h2
      · subst h2
        simp [erase1, h1, ih]
      · have h3 : e.1 ≠ q := fun h => h2 (h.symm.trans h1)
        have h4 : k ≠ q := fun h => h2 h.symm
        simp [erase1, find1, h1, h2, h3, h4, ih]
    · rcases eq_or_ne e.1 q with h2 | h2
      · have h3 : q ≠ k := fun h => h1 (h2.trans h)
        simp [erase1, find1, h1, h2, h3]
      · simp [erase1, find1, h1, h2, ih]

theorem find1_cons_self {κ α : Type} [DecidableEq κ] (k : κ) (a : α)
    (l : List (κ × α)) : find1 k ((k, a) :: l) = some a := by
  simp [find1]

@[simp] theorem FS.dirs_writeFile (fs : FS) (p : FPath) (c : Bytes) :
    (fs.writeFile p c).dirs = fs.dirs := rfl

@[simp] theorem FS.dirs_removeFile (fs : FS) (p : FPath) :
    (fs.removeFile p).dirs = fs.dirs := rfl

@[simp] theorem FS.dirs_mkdir (fs : FS) (t : FPath) :
    (fs.mkdir t).dirs = t :: fs.dirs := rfl

theorem FS.lookupFile_writeFile (fs : FS) (p : FPath) (c : Bytes) (q : FPath) :
    (fs.writeFile p c).lookupFile q = if q = p then some c else fs.lookupFile q := by
  unfold FS.writeFile FS.lookupFile
  rcases eq_or_ne q p with h | h
  · simp [find1, h]
  · have h2 : p ≠ q := fun hh => h hh.symm
    simp [find1, h, h2, find1_erase1]

theorem FS.lookupFile_removeFile (fs : FS) (p q : FPath) :
    (fs.removeFile p).lookupFile q = if q = p then none else fs.lookupFile q := by
  unfold FS.removeFile FS.lookupFile
  exact find1_erase1 p q fs.files

theorem find1_filter_prefix_none {α : Type} (t p : FPath)
    (l : List (FPath × α)) (h : t <+: p) :
    find1 p (l.filter (fun e => decide (¬ t <+: e.1))) = none := by
  induction l with
  | nil => simp [find1]
  | cons e es ih =>
    by_cases hk : t <+: e.1
    · have hd : (decide (¬ t <+: e.1)) = false := by simp [hk]
      rw [List.filter_cons, hd]
      simpa using ih
    · have hd : (decide (¬ t <+: e.1)) = true := by simp [hk]
      rw [List.filter_cons, hd]
      have hne : e.1 ≠ p := fun hh => hk (hh ▸ h)
      simpa [find1, hne] using ih

theorem FS.lookupFile_removeTree (fs : FS) (t p : FPath) (h : t <+: p) :
    (fs.removeTree t).lookupFile p = none := by
  unfold FS.removeTree FS.lookupFile
  exact find1_filter_prefix_none t p fs.files h

theorem FS.isDir_removeTree (fs : FS) (t d : FPath) (h : t <+: d) :
    d ∉ (fs.removeTree t).dirs := by
  unfold FS.removeTree
  intro hmem
  have := List.of_mem_filter hmem
  simp at this
  exact this h

theorem afterZip_lookup (fs : FS) (src t : FPath) (z : String) :
    (afterZip fs src t z).lookupFile (t ++ [z]) =
      some (archiveBytes (fs.mkdir t) src) := by
  unfold afterZip
  rw [FS.lookupFile_writeFile, if_pos rfl]

theorem zip_to_mkdir_ok (fs : FS) (src t : FPath) (z : String) (ow : Bool)
    (hsrc : src ∈ (fs.mkdir t).dirs)
    (hcond : ¬ (ow = true ∧ ((fs.mkdir t).writeFile (withZipExt src)
        (archiveBytes (fs.mkdir t) src)).existsAny (t ++ [z]))) :
    zip_to (fs.mkdir t) src (t ++ [z]) ow =
      (Except.ok (t ++ [z]), afterZip fs src t z) := by
  simp only [zip_to]
  rw [if_pos hsrc, if_neg hcond]
  unfold FS.rename
  rw [FS.lookupFile_writeFile, if_pos rfl]
  have hpar : (t ++ [z]).dropLast = [] ∨
      (t ++ [z]).dropLast ∈ ((fs.mkdir t).writeFile (withZipExt src)
        (archiveBytes (fs.mkdir t) src)).dirs := by
    right
    rw [List.dropLast_concat, FS.dirs_writeFile, FS.dirs_mkdir]
    exact List.mem_cons_self t fs.dirs
  simp [hpar, afterZip]

theorem push_to_s3_ok_default (s3 : S3) (fs : FS) (file : FPath)
    (bucket z : String) (ab : Bytes)
    (hfile : fs.lookupFile file = some ab)
    (hlast : file.getLastD "" = z)
    (hf : (bucket, z) ∉ s3.writeFaults) :
    ∃ s3a, push_to_s3 s3 fs file bucket none true "EU" =
        (Except.ok { bucket_name := bucket, key := z }, s3a) ∧
      objLookup s3a bucket z = some ab := by
  simp only [List.getLastD_eq_getLast?] at hlast
  refine ⟨(push_to_s3 s3 fs file bucket none true "EU").2,
    Prod.ext_iff.mpr ⟨?_, rfl⟩, ?_⟩ <;>
    cases hb : find1 bucket s3.buckets with
  | some bd =>
    simp [push_to_s3, hfile, hlast, put_object, hf, hb, objLookup,
      find1_cons_self]
  | none =>
    simp [push_to_s3, hfile, hlast, put_object, hf, hb, bucket_create,
      objLookup, find1_cons_self, find1, erase1]

theorem rename_ok_frame (fs : FS) (src dst : FPath) (r : Unit) (fsx : FS)
    (h : fs.rename src dst = (Except.ok r, fsx)) :
    (∀ p, p ≠ dst → p ≠ src → fsx.lookupFile p = fs.lookupFile p) ∧
    (src ≠ dst → fsx.lookupFile src = none) ∧ fsx.dirs = fs.dirs := by
  unfold FS.rename at h
  split at h
  · simp at h
  · split at h
    · simp only [Prod.mk.injEq] at h
      obtain ⟨-, h2⟩ := h
      subst h2
      refine ⟨?_, ?_, rfl⟩
      · intro p hp1 hp2
        rw [FS.lookupFile_writeFile, if_neg hp1,
          FS.lookupFile_removeFile, if_neg hp2]
      · intro hsd
        rw [FS.lookupFile_writeFile, if_neg hsd,
          FS.lookupFile_removeFile, if_pos rfl]
    · simp at h

/-!  The claims. -/

/-- Claim C1, evidence of the code bug.  The claim says that with
`overwrite = false` and an existing destination, `zip_to` fails with
`AlreadyExistsError` and leaves the destination unchanged.  On the
filesystem `fsC1`, where `out.zip` already holds `[9]`, the call with
`overwrite = false` instead succeeds and replaces `out.zip` with the new
archive `[7]`: POSIX `Path.rename` silently replaces an existing
destination file, so the `overwrite` guard of the source never fires. -/
theorem zip_to_silently_replaces_existing :
    (zip_to fsC1 ["src"] ["out.zip"] false).1 = Except.ok ["out.zip"] ∧
    (zip_to fsC1 ["src"] ["out.zip"] false).2.lookupFile ["out.zip"] =
      some [7] ∧
    fsC1.lookupFile ["out.zip"] = some [9] :=
  ⟨rfl, rfl, rfl⟩

/-- Claim C2, evidence of the code bug.  The claim says `push_to_s3`
stores the object under the caller-supplied key when one is given.  On a
store where bucket `bkt` exists, pushing `b.zip` with the explicit key
`custom` stores and returns the key `b.zip` (the file base name):
the first `put_object` call of the source passes `Key=file_path.name`
instead of the supplied `key`. -/
theorem push_to_s3_ignores_supplied_key :
    (push_to_s3 s3C2 fsC2 ["b.zip"] "bkt" (some "custom") false "EU").1 =
      Except.ok { bucket_name := "bkt", key := "b.zip" } ∧
    objLookup (push_to_s3 s3C2 fsC2 ["b.zip"] "bkt" (some "custom") false
        "EU").2 "bkt" "custom" = none ∧
    objLookup (push_to_s3 s3C2 fsC2 ["b.zip"] "bkt" (some "custom") false
        "EU").2 "bkt" "b.zip" = some [1, 2, 3] :=
  ⟨rfl, rfl, rfl⟩

/-- Claim C3: when the first write fails because the bucket is missing,
`push_to_s3` with `create_bucket = true` creates the bucket with the
given location and retries the write once, which then succeeds and
stores the content under the defaulted key; with `create_bucket = false`
it fails with the propagated `NoSuchBucket` error and creates no bucket;
and a write failure other than a missing bucket propagates immediately,
with no retry and no state change. -/
theorem push_to_s3_autocreate_spec (s3 : S3) (fs : FS) (file : FPath)
    (bucket : String) (key : Option String) (loc : String) (content : Bytes)
    (hfile : fs.lookupFile file = some content) :
    ((find1 bucket s3.buckets = none →
        (bucket, file.getLastD "") ∉ s3.writeFaults →
        (bucket, key.getD (file.getLastD "")) ∉ s3.writeFaults →
        ∃ s3a, push_to_s3 s3 fs file bucket key true loc =
            (Except.ok { bucket_name := bucket,
                         key := key.getD (file.getLastD "") }, s3a) ∧
          Option.map BucketData.region (find1 bucket s3a.buckets) =
            some loc ∧
          objLookup s3a bucket (key.getD (file.getLastD "")) =
            some content) ∧
     (find1 bucket s3.buckets = none →
        (bucket, file.getLastD "") ∉ s3.writeFaults →
        push_to_s3 s3 fs file bucket key false loc =
          (Except.error Err.containerNotFound, s3)) ∧
     (∀ cb : Bool, (bucket, file.getLastD "") ∈ s3.writeFaults →
        push_to_s3 s3 fs file bucket key cb loc =
          (Except.error Err.storeWrite, s3))) := by
  refine ⟨?_, ?_, ?_⟩
  · intro hb hf1 hf2
    simp only [List.getLastD_eq_getLast?] at hf1 hf2
    refine ⟨(push_to_s3 s3 fs file bucket key true loc).2,
      Prod.ext_iff.mpr ⟨?_, rfl⟩, ?_, ?_⟩ <;>
      simp [push_to_s3, hfile, put_object, hb, hf1, hf2, bucket_create,
        objLookup, find1_cons_self, find1, erase1]
  · intro hb hf1
    simp only [List.getLastD_eq_getLast?] at hf1
    simp [push_to_s3, hfile, put_object, hb, hf1]
  · intro cb hf1
    simp only [List.getLastD_eq_getLast?] at hf1
    simp [push_to_s3, hfile, put_object, hf1]

/-- Witness for C3 at a concrete input: pushing `b.zip` with key `k`
into the missing bucket `bkt`. -/
theorem push_to_s3_autocreate_spec_witness :
    fsC2.lookupFile ["b.zip"] = some [1, 2, 3] ∧
    (∃ s3a,
      push_to_s3 s3Empty fsC2 ["b.zip"] "bkt" (some "k") true "us-east-1" =
        (Except.ok { bucket_name := "bkt", key := "k" }, s3a) ∧
      Option.map BucketData.region (find1 "bkt" s3a.buckets) =
        some "us-east-1" ∧
      objLookup s3a "bkt" "k" = some [1, 2, 3]) ∧
    push_to_s3 s3Empty fsC2 ["b.zip"] "bkt" (some "k") false "us-east-1" =
      (Except.error Err.containerNotFound, s3Empty) :=
  ⟨rfl,
   (push_to_s3_autocreate_spec s3Empty fsC2 ["b.zip"] "bkt" (some "k")
       "us-east-1" [1, 2, 3] rfl).1 rfl (by decide) (by decide),
   (push_to_s3_autocreate_spec s3Empty fsC2 ["b.zip"] "bkt" (some "k")
       "us-east-1" [1, 2, 3] rfl).2.1 rfl (by decide)⟩

/-- Claim C4: when function registration fails on a duplicate name,
`deploy_function` surfaces that error; route publishing is never
attempted (the gateway state is returned unchanged), no rollback occurs
(the function service state is returned unchanged), and the uploaded
artifact remains in the store. -/
theorem deploy_function_halts_on_duplicate
    (fs : FS) (s3 : S3) (lam : Lam) (gw : Gw) (t : FPath)
    (name : String) (fp : FPath) (bucket role descr : String)
    (layers : Option (List String)) (env : Option (List (String × String)))
    (make_api : Bool) (info0 : FnInfo)
    (hsrc : fp ∈ (fs.mkdir t).dirs)
    (hf : (bucket, "lambda_function.zip") ∉ s3.writeFaults)
    (hdup : find1 name lam.functions = some info0) :
    ∃ fs1 s3a,
      deploy_function fs s3 lam gw t name fp bucket role layers descr env
          make_api =
        (Except.error Err.duplicateFunction, fs1, s3a, lam, gw) ∧
      objLookup s3a bucket "lambda_function.zip" =
        some (archiveBytes (fs.mkdir t) fp) := by
  have hzip := zip_to_mkdir_ok fs fp t "lambda_function.zip" false hsrc
    (by simp)
  obtain ⟨s3a, hpush, hobj⟩ := push_to_s3_ok_default s3
    (afterZip fs fp t "lambda_function.zip") (t ++ ["lambda_function.zip"])
    bucket "lambda_function.zip" (archiveBytes (fs.mkdir t) fp)
    (afterZip_lookup fs fp t "lambda_function.zip") (by simp) hf
  refine ⟨(afterZip fs fp t "lambda_function.zip").removeTree t, s3a, ?_,
    hobj⟩
  simp [deploy_function, create_function, hzip, hpush, hdup]

/-- Witness for C4: deploying `f1` when the service already holds `f1`. -/
theorem deploy_function_halts_on_duplicate_witness :
    find1 "f1" lamOne.functions = some infoSample ∧
    ∃ fs1 s3a,
      deploy_function fsSrc s3Empty lamOne gwEmpty ["tmp"] "f1" ["src"]
          "bkt" "role1" none "" none true =
        (Except.error Err.duplicateFunction, fs1, s3a, lamOne, gwEmpty) ∧
      objLookup s3a "bkt" "lambda_function.zip" =
        some (archiveBytes (fsSrc.mkdir ["tmp"]) ["src"]) :=
  ⟨rfl,
   deploy_function_halts_on_duplicate fsSrc s3Empty lamOne gwEmpty ["tmp"]
     "f1" ["src"] "bkt" "role1" "" none none true infoSample (by decide)
     (by decide) rfl⟩

/-- Claim C5: on success, `create_lambda_api_link` returns the URL
assembled from the newly generated API identifier, the stage name and
the path part, in the shape
`https://{api_id}.{gateway_host}/{stage}/{path}/` with the stage segment
before the path segment, and the generated identifier is the one of the
API just created. -/
theorem create_lambda_api_link_url_spec (gw : Gw)
    (function_arn api_name path_part stage_name description : String) :
    (create_lambda_api_link gw function_arn api_name path_part stage_name
        description).1 =
      Except.ok ("https://" ++ genId gw.nextId ++
        ".execute-api.eu-west-1.amazonaws.com/" ++ stage_name ++ "/" ++
        path_part ++ "/") ∧
    ∃ a : Api,
      (create_lambda_api_link gw function_arn api_name path_part stage_name
          description).2.apis = gw.apis ++ [a] ∧
      a.id = genId gw.nextId ∧ a.stages = [stage_name] ∧
      a.pathParts = [path_part] :=
  ⟨rfl, ⟨_, rfl, rfl, rfl, rfl⟩⟩

/-- Claim C6, counterexample.  The claim says that on every exit path of
the archiver no file is left anywhere other than `destination_path`.
Archiving `src` to `nodir/out.zip`, where the directory `nodir` does not
exist, raises from the final move, and the intermediate archive
`src.zip` — written next to the source directory, not in a temporary
staging area — is left on disk at a path other than the destination. -/
theorem zip_to_leftover_on_failure :
    (zip_to fsSrc ["src"] ["nodir", "out.zip"] false).1 =
      Except.error Err.fileNotFound ∧
    (zip_to fsSrc ["src"] ["nodir", "out.zip"] false).2.lookupFile
        ["src.zip"] = some [7] ∧
    (["src.zip"] : FPath) ≠ ["nodir", "out.zip"] :=
  ⟨rfl, rfl, by decide⟩

/-- Claim C6 as amended.  When the archiver's final move succeeds, no
file is left anywhere other than `destination_path`: every other path
keeps its previous content, the intermediate archive
`{source_dir}.zip` is gone, and no directory is created or removed.
The orchestrator's temporary staging directory is removed on every exit
path of `create_function`, success or failure.  (As the counterexample
shows, the claim's further assertion — cleanup of the intermediate
archive when the move itself fails — does not hold: the intermediate
archive is not written to a temporary staging area.) -/
theorem zip_to_frame_and_staging_cleanup :
    (∀ (fs : FS) (to_zip zip_name : FPath) (ow : Bool) (r : FPath) (fs1 : FS),
      zip_to fs to_zip zip_name ow = (Except.ok r, fs1) →
      (∀ p : FPath, p ≠ zip_name → p ≠ withZipExt to_zip →
        fs1.lookupFile p = fs.lookupFile p) ∧
      (withZipExt to_zip ≠ zip_name →
        fs1.lookupFile (withZipExt to_zip) = none) ∧
      fs1.dirs = fs.dirs) ∧
    (∀ (fs : FS) (s3 : S3) (lam : Lam) (t : FPath) (name : String)
      (fp : FPath) (bucket role handler descr : String)
      (layers : Option (List String)) (agp : Bool)
      (env : Option (List (String × String))) (p : FPath),
      t <+: p →
      (create_function fs s3 lam t name fp bucket role layers handler
          descr agp env).2.1.lookupFile p = none ∧
      p ∉ (create_function fs s3 lam t name fp bucket role layers handler
          descr agp env).2.1.dirs) := by
  constructor
  · intro fs to_zip zip_name ow r fs1 h
    simp only [zip_to] at h
    by_cases hd : to_zip ∈ fs.dirs
    · rw [if_pos hd] at h
      cases hr : (if ow = true ∧ (fs.writeFile (withZipExt to_zip)
            (archiveBytes fs to_zip)).existsAny zip_name then
          (fs.writeFile (withZipExt to_zip)
            (archiveBytes fs to_zip)).removeFile zip_name
        else fs.writeFile (withZipExt to_zip)
          (archiveBytes fs to_zip)).rename (withZipExt to_zip) zip_name with
      | mk re fsx =>
        rw [hr] at h
        cases re with
        | error e => simp at h
        | ok u =>
          simp only [Prod.mk.injEq] at h
          obtain ⟨-, h2⟩ := h
          subst h2
          obtain ⟨hf1, hf2, hf3⟩ := rename_ok_frame _ _ _ u fsx hr
          have hfs2lookup : ∀ p : FPath, p ≠ zip_name →
              (if ow = true ∧ (fs.writeFile (withZipExt to_zip)
                  (archiveBytes fs to_zip)).existsAny zip_name then
                (fs.writeFile (withZipExt to_zip)
                  (archiveBytes fs to_zip)).removeFile zip_name
              else fs.writeFile (withZipExt to_zip)
                (archiveBytes fs to_zip)).lookupFile p =
              (fs.writeFile (withZipExt to_zip)
                (archiveBytes fs to_zip)).lookupFile p := by
            intro p hp
            split
            · rw [FS.lookupFile_removeFile, if_neg hp]
            · rfl
          have hfs2dirs :
              (if ow = true ∧ (fs.writeFile (withZipExt to_zip)
                  (archiveBytes fs to_zip)).existsAny zip_name then
                (fs.writeFile (withZipExt to_zip)
                  (archiveBytes fs to_zip)).removeFile zip_name
              else fs.writeFile (withZipExt to_zip)
                (archiveBytes fs to_zip)).dirs = fs.dirs := by
            split <;> rfl
          refine ⟨?_, ?_, ?_⟩
          · intro p hp1 hp2
            rw [hf1 p hp1 hp2, hfs2lookup p hp1,
              FS.lookupFile_writeFile, if_neg hp2]
          · intro hzz
            exact hf2 hzz
          · rw [hf3, hfs2dirs]
    · rw [if_neg hd] at h
      simp at h
  · intro fs s3 lam t name fp bucket role handler descr layers agp env p hp
    simp only [create_function]
    repeat' split
    all_goals
      exact ⟨FS.lookupFile_removeTree _ t p hp, FS.isDir_removeTree _ t p hp⟩

/-- Witness for the amended C6 at concrete inputs: a successful archive
run leaves other files untouched and removes the intermediate archive,
and a `create_function` run leaves nothing under the staging directory. -/
theorem zip_to_frame_and_staging_cleanup_witness :
    ((zip_to fsC1 ["src"] ["out.zip"] false).2.lookupFile ["src", "a"] =
        fsC1.lookupFile ["src", "a"] ∧
      (zip_to fsC1 ["src"] ["out.zip"] false).2.lookupFile ["src.zip"] =
        none ∧
      (zip_to fsC1 ["src"] ["out.zip"] false).2.dirs = fsC1.dirs) ∧
    ((create_function fsSrc s3Empty lamEmpty ["tmp"] "f1" ["src"] "bkt"
        "role1" none "m.h" "" true none).2.1.lookupFile
          ["tmp", "lambda_function.zip"] = none ∧
      ["tmp", "lambda_function.zip"] ∉
        (create_function fsSrc s3Empty lamEmpty ["tmp"] "f1" ["src"] "bkt"
          "role1" none "m.h" "" true none).2.1.dirs) :=
  ⟨⟨(zip_to_frame_and_staging_cleanup.1 fsC1 ["src"] ["out.zip"] false
        ["out.zip"] (zip_to fsC1 ["src"] ["out.zip"] false).2 rfl).1
      ["src", "a"] (by decide) (by decide),
    (zip_to_frame_and_staging_cleanup.1 fsC1 ["src"] ["out.zip"] false
        ["out.zip"] (zip_to fsC1 ["src"] ["out.zip"] false).2 rfl).2.1
      (by decide),
    (zip_to_frame_and_staging_cleanup.1 fsC1 ["src"] ["out.zip"] false
        ["out.zip"] (zip_to fsC1 ["src"] ["out.zip"] false).2 rfl).2.2⟩,
   zip_to_frame_and_staging_cleanup.2 fsSrc s3Empty lamEmpty ["tmp"] "f1"
     ["src"] "bkt" "role1" "m.h" "" none true none
     ["tmp", "lambda_function.zip"] (by decide)⟩

/-- Claim C7: when a non-empty layer list is supplied, `update_function`
replaces the function's entire layer list (independently of the previous
list) in a remote call separate from the code update: after the layer
call alone the record holds the new layers with the code reference still
unchanged (the state a failure between the two sub-steps would leave),
and after the full operation the record holds the new layers and the new
code reference.  When the function name does not exist, the operation
fails with `FunctionNotFoundError` and leaves the function service
unchanged. -/
theorem update_function_layers_spec
    (fs : FS) (s3 : S3) (lam : Lam) (t : FPath)
    (name : String) (fp : FPath) (bucket : String) (ls : List String)
    (hsrc : fp ∈ (fs.mkdir t).dirs)
    (hzz : withZipExt fp ≠ t ++ ["lambda_function.zip"])
    (hdst : ¬ (fs.mkdir t).existsAny (t ++ ["lambda_function.zip"]))
    (hf : (bucket, "lambda_function.zip") ∉ s3.writeFaults)
    (hne : ls ≠ []) :
    (∀ info : FnInfo, find1 name lam.functions = some info →
      find1 name (add_layers_to_function lam name ls).2.functions =
        some { info with layers := ls } ∧
      ∃ fs1 s3a lam2,
        update_function fs s3 lam t name fp bucket (some ls) =
          (Except.ok
            { info with
              layers := ls, codeBucket := bucket,
              codeKey := "lambda_function.zip" }, fs1, s3a, lam2) ∧
        find1 name lam2.functions =
          some
            { info with
              layers := ls, codeBucket := bucket,
              codeKey := "lambda_function.zip" }) ∧
    (find1 name lam.functions = none →
      ∃ fs1 s3a,
        update_function fs s3 lam t name fp bucket (some ls) =
          (Except.error Err.functionNotFound, fs1, s3a, lam)) := by
  have hcond : ¬ (true = true ∧ ((fs.mkdir t).writeFile (withZipExt fp)
      (archiveBytes (fs.mkdir t) fp)).existsAny
        (t ++ ["lambda_function.zip"])) := by
    rintro ⟨-, hex⟩
    apply hdst
    unfold FS.existsAny at hex ⊢
    rcases hex with h | h
    · left
      rwa [FS.lookupFile_writeFile,
        if_neg (fun hh => hzz hh.symm)] at h
    · right
      simpa using h
  have hzip := zip_to_mkdir_ok fs fp t "lambda_function.zip" true hsrc hcond
  obtain ⟨s3a, hpush, hobj⟩ := push_to_s3_ok_default s3
    (afterZip fs fp t "lambda_function.zip") (t ++ ["lambda_function.zip"])
    bucket "lambda_function.zip" (archiveBytes (fs.mkdir t) fp)
    (afterZip_lookup fs fp t "lambda_function.zip") (by simp) hf
  constructor
  · intro info hinfo
    constructor
    · simp [add_layers_to_function, hinfo, find1_cons_self]
    · refine ⟨(afterZip fs fp t "lambda_function.zip").removeTree t, s3a,
        { lam with
          functions :=
            (name,
              { info with
                layers := ls, codeBucket := bucket,
                codeKey := "lambda_function.zip" }) ::
              erase1 name (erase1 name lam.functions) }, ?_, ?_⟩
      · simp [update_function, hzip, hpush, hne, add_layers_to_function,
          hinfo, update_lambda_code_from_s3, find1_cons_self, erase1]
      · exact find1_cons_self _ _ _
  · intro hnone
    refine ⟨(afterZip fs fp t "lambda_function.zip").removeTree t, s3a, ?_⟩
    simp [update_function, hzip, hpush, hne, add_layers_to_function, hnone]

/-- Witness for C7: updating the existing `f1` with the layer list
`[l1]`. -/
theorem update_function_layers_spec_witness :
    find1 "f1" lamOne.functions = some infoSample ∧
    (find1 "f1" (add_layers_to_function lamOne "f1" ["l1"]).2.functions =
        some { infoSample with layers := ["l1"] } ∧
      ∃ fs1 s3a lam2,
        update_function fsSrc s3Empty lamOne ["tmp"] "f1" ["src"] "bkt"
            (some ["l1"]) =
          (Except.ok
            { infoSample with
              layers := ["l1"], codeBucket := "bkt",
              codeKey := "lambda_function.zip" }, fs1, s3a, lam2) ∧
        find1 "f1" lam2.functions =
          some
            { infoSample with
              layers := ["l1"], codeBucket := "bkt",
              codeKey := "lambda_function.zip" }) :=
  ⟨rfl,
   (update_function_layers_spec fsSrc s3Empty lamOne ["tmp"] "f1" ["src"]
       "bkt" ["l1"] (by decide) (by decide) (by decide) (by decide)
       (by decide)).1 infoSample rfl⟩

/-- Claim C8: after a successful registration with
`api_gateway_permission = true`, the gateway invocation permission is
granted in a second remote call, so the stored record carries the
permission while the returned create response does not; when that second
call fails, the failure is surfaced to the caller as the result, but the
function just created still exists in the service, without the
permission — no rollback. -/
theorem create_function_grant_spec
    (fs : FS) (s3 : S3) (lam : Lam) (t : FPath)
    (name : String) (fp : FPath) (bucket role handler descr : String)
    (layers : Option (List String)) (env : Option (List (String × String)))
    (hsrc : fp ∈ (fs.mkdir t).dirs)
    (hf : (bucket, "lambda_function.zip") ∉ s3.writeFaults)
    (hnew : find1 name lam.functions = none) :
    (name ∉ lam.grantFaults →
      ∃ info fs1 s3a lam1,
        create_function fs s3 lam t name fp bucket role layers handler
            descr true env = (Except.ok info, fs1, s3a, lam1) ∧
        find1 name lam1.functions =
          some { info with hasGatewayPermission := true } ∧
        info.hasGatewayPermission = false) ∧
    (name ∈ lam.grantFaults →
      ∃ info fs1 s3a lam1,
        create_function fs s3 lam t name fp bucket role layers handler
            descr true env =
          (Except.error Err.permissionGrant, fs1, s3a, lam1) ∧
        find1 name lam1.functions = some info ∧
        info.hasGatewayPermission = false) := by
  have hzip := zip_to_mkdir_ok fs fp t "lambda_function.zip" false hsrc
    (by simp)
  obtain ⟨s3a, hpush, hobj⟩ := push_to_s3_ok_default s3
    (afterZip fs fp t "lambda_function.zip") (t ++ ["lambda_function.zip"])
    bucket "lambda_function.zip" (archiveBytes (fs.mkdir t) fp)
    (afterZip_lookup fs fp t "lambda_function.zip") (by simp) hf
  constructor
  · intro hg
    refine ⟨createdInfo name bucket role handler descr layers env,
      (afterZip fs fp t "lambda_function.zip").removeTree t, s3a,
      { lam with
        functions :=
          (name,
            { createdInfo name bucket role handler descr layers env with
              hasGatewayPermission := true }) :: lam.functions },
      ?_, ?_, rfl⟩
    · simp [create_function, hzip, hpush, hnew, hg, createdInfo]
    · exact find1_cons_self _ _ _
  · intro hg
    refine ⟨createdInfo name bucket role handler descr layers env,
      (afterZip fs fp t "lambda_function.zip").removeTree t, s3a,
      { lam with
        functions :=
          (name, createdInfo name bucket role handler descr layers env) ::
            lam.functions },
      ?_, ?_, rfl⟩
    · simp [create_function, hzip, hpush, hnew, hg, createdInfo]
    · exact find1_cons_self _ _ _

/-- Witness for C8: creating `f1` once on a fault-free service and once
on a service whose permission-grant call for `f1` fails. -/
theorem create_function_grant_spec_witness :
    find1 "f1" lamEmpty.functions = none ∧
    (∃ info fs1 s3a lam1,
      create_function fsSrc s3Empty lamEmpty ["tmp"] "f1" ["src"] "bkt"
          "role1" none "m.h" "" true none =
        (Except.ok info, fs1, s3a, lam1) ∧
      find1 "f1" lam1.functions =
        some { info with hasGatewayPermission := true } ∧
      info.hasGatewayPermission = false) ∧
    (∃ info fs1 s3a lam1,
      create_function fsSrc s3Empty lamFault ["tmp"] "f1" ["src"] "bkt"
          "role1" none "m.h" "" true none =
        (Except.error Err.permissionGrant, fs1, s3a, lam1) ∧
      find1 "f1" lam1.functions = some info ∧
      info.hasGatewayPermission = false) :=
  ⟨rfl,
   (create_function_grant_spec fsSrc s3Empty lamEmpty ["tmp"] "f1" ["src"]
       "bkt" "role1" "m.h" "" none none (by decide) (by decide) rfl).1
     (by decide),
   (create_function_grant_spec fsSrc s3Empty lamFault ["tmp"] "f1" ["src"]
       "bkt" "role1" "m.h" "" none none (by decide) (by decide) rfl).2
     (by decide)⟩

/-- Claim C9: `delete_function` on a missing name fails with
`FunctionNotFoundError` and changes nothing; on an existing name it
removes the function and returns `True`, after which the name no longer
resolves. -/
theorem delete_function_spec (lam : Lam) (name : String) :
    (find1 name lam.functions = none →
      delete_function lam name = (Except.error Err.functionNotFound, lam)) ∧
    (∀ info : FnInfo, find1 name lam.functions = some info →
      delete_function lam name =
        (Except.ok true,
         { lam with functions := erase1 name lam.functions }) ∧
      find1 name (erase1 name lam.functions) = none) := by
  constructor
  · intro h
    simp [delete_function, h]
  · intro info h
    refine ⟨by simp [delete_function, h], ?_⟩
    rw [find1_erase1]
    simp

/-- Witness for C9: deleting the existing `f1` and deleting from an
empty service. -/
theorem delete_function_spec_witness :
    find1 "f1" lamOne.functions = some infoSample ∧
    (delete_function lamOne "f1" =
      (Except.ok true,
       { lamOne with functions := erase1 "f1" lamOne.functions }) ∧
     find1 "f1" (erase1 "f1" lamOne.functions) = none) ∧
    delete_function lamEmpty "f1" =
      (Except.error Err.functionNotFound, lamEmpty) :=
  ⟨rfl, (delete_function_spec lamOne "f1").2 infoSample rfl,
   (delete_function_spec lamEmpty "f1").1 rfl⟩

/-- Claim C10: a successful `deploy_function` with `make_api = false`
returns the fixed string; with `make_api = true` it creates one gateway
API named after the function with path part `api` and stage `test`, and
returns the URL
`https://{generated_api_id}.execute-api.eu-west-1.amazonaws.com/test/api/`. -/
theorem deploy_function_return_spec
    (fs : FS) (s3 : S3) (lam : Lam) (gw : Gw) (t : FPath)
    (name : String) (fp : FPath) (bucket role descr : String)
    (layers : Option (List String)) (env : Option (List (String × String)))
    (hsrc : fp ∈ (fs.mkdir t).dirs)
    (hf : (bucket, "lambda_function.zip") ∉ s3.writeFaults)
    (hnew : find1 name lam.functions = none)
    (hg : name ∉ lam.grantFaults) :
    (deploy_function fs s3 lam gw t name fp bucket role layers descr env
        false).1 = Except.ok "Function deployed successfully" ∧
    (deploy_function fs s3 lam gw t name fp bucket role layers descr env
        true).1 =
      Except.ok ("https://" ++ genId gw.nextId ++
        ".execute-api.eu-west-1.amazonaws.com/test/api/") ∧
    ∃ a : Api,
      (deploy_function fs s3 lam gw t name fp bucket role layers descr env
          true).2.2.2.2.apis = gw.apis ++ [a] ∧
      a.id = genId gw.nextId ∧ a.name = name ∧
      a.pathParts = ["api"] ∧ a.stages = ["test"] := by
  have hzip := zip_to_mkdir_ok fs fp t "lambda_function.zip" false hsrc
    (by simp)
  obtain ⟨s3a, hpush, hobj⟩ := push_to_s3_ok_default s3
    (afterZip fs fp t "lambda_function.zip") (t ++ ["lambda_function.zip"])
    bucket "lambda_function.zip" (archiveBytes (fs.mkdir t) fp)
    (afterZip_lookup fs fp t "lambda_function.zip") (by simp) hf
  refine ⟨?_, ?_, ?_⟩
  · simp [deploy_function, create_function, hzip, hpush, hnew, hg]
  · simp [deploy_function, create_function, hzip, hpush, hnew, hg,
      create_lambda_api_link]
    simp only [String.append_assoc]
    congr 1
  · refine ⟨{ id := genId gw.nextId, name := name, descr := descr,
              pathParts := ["api"], methods := [("api", "ANY")],
              integrations := [("api", "AWS_PROXY",
                "arn:aws:apigateway:eu-west-1:lambda:path/2015-03-31/functions/"
                  ++ arnOf name ++ "/invocations")],
              stages := ["test"] }, ?_, rfl, rfl, rfl, rfl⟩
    simp [deploy_function, create_function, hzip, hpush, hnew, hg,
      create_lambda_api_link]

/-- Witness for C10: deploying `f1` from an empty service, with and
without a gateway route. -/
theorem deploy_function_return_spec_witness :
    find1 "f1" lamEmpty.functions = none ∧
    (deploy_function fsSrc s3Empty lamEmpty gwEmpty ["tmp"] "f1" ["src"]
        "bkt" "role1" none "" none false).1 =
      Except.ok "Function deployed successfully" ∧
    (deploy_function fsSrc s3Empty lamEmpty gwEmpty ["tmp"] "f1" ["src"]
        "bkt" "role1" none "" none true).1 =
      Except.ok ("https://" ++ genId 0 ++
        ".execute-api.eu-west-1.amazonaws.com/test/api/") :=
  ⟨rfl,
   (deploy_function_return_spec fsSrc s3Empty lamEmpty gwEmpty ["tmp"] "f1"
       ["src"] "bkt" "role1" "" none none (by decide) (by decide) rfl
       (by decide)).1,
   (deploy_function_return_spec fsSrc s3Empty lamEmpty gwEmpty ["tmp"] "f1"
       ["src"] "bkt" "role1" "" none none (by decide) (by decide) rfl
       (by decide)).2.1⟩

end Paws
